import Mathlib

/-!
Shallow embedding of the StudiozensImages batch optimizers
(`optimize_media.py`, which processes `Servicios/` into `ServiciosOptimized/`,
and `optimize_productos.py`, which processes `Productos/` into
`ProductosOptimized/`).

Conventions of the embedding:

* File sizes are rationals, in megabytes (`st_size / (1024*1024)`).
* Python `pathlib.Path` is modelled by `PyPath`: the text of the path up to
  its final suffix, plus the final suffix (as in `Path.suffix`, dot included).
* The filesystem, the Pillow image codec and the external `ffmpeg` process
  are oracles: each transcode call receives the outcome the external
  collaborator produces (`ImgAttempt`, `FfmpegOutcome`) and the embedding
  records the filesystem action the function performs (`ImgAction`,
  `VidAction`).  Filesystem writes and copies themselves are assumed to
  succeed: the caught failure modes are decode/resize/encode errors and the
  external-tool failures, matching the failure policy of the scripts.
* Rational division is total in Lean (`q / 0 = 0`), while Python raises
  `ZeroDivisionError`.  The unguarded divisions in the source divide by
  `original_size_mb` on the success path of a transcode, which is reachable
  only for a file that decoded or transcoded, hence a nonempty file;
  theorems about the success path therefore carry the hypothesis
  `0 < original_size_mb`.  The summary divisions are guarded in the source
  and modelled with `Option`.
-/

/-- Python `pathlib.Path`, reduced to the operations the scripts use:
`suffix` (the final extension, dot included), `with_suffix`, and joining a
directory with a relative path.  `base` is the textual path with the final
suffix removed. -/
structure PyPath where
  base : String
  suffix : String
deriving DecidableEq

/-- Model of `Path.with_suffix`: replace the final suffix. -/
def PyPath.withSuffix (p : PyPath) (s : String) : PyPath :=
  { p with suffix := s }

/-- Model of `dir / rel` for a directory `dir` and a relative path `rel`. -/
def PyPath.join (dir rel : PyPath) : PyPath :=
  { base := dir.base ++ "/" ++ rel.base, suffix := rel.suffix }

/-- Full textual form of a path (used when a path is spliced into the
`ffmpeg` argument list via `str(...)`). -/
def PyPath.toStr (p : PyPath) : String :=
  p.base ++ p.suffix

/-- `IMAGE_QUALITY = 75` (both scripts). -/
def IMAGE_QUALITY : Nat := 75

/-- `IMAGE_MAX_WIDTH = 1920` (both scripts). -/
def IMAGE_MAX_WIDTH : Nat := 1920

/-- `IMAGE_MAX_HEIGHT = 1080` (both scripts). -/
def IMAGE_MAX_HEIGHT : Nat := 1080

/-- `CONVERT_TO_WEBP = True` (both scripts). -/
def CONVERT_TO_WEBP : Bool := true

/-- `VIDEO_CRF = 28` (`optimize_media.py`). -/
def VIDEO_CRF : Nat := 28

/-- `VIDEO_MAX_HEIGHT = 720` (`optimize_media.py`). -/
def VIDEO_MAX_HEIGHT : Nat := 720

/-- `VIDEO_AUDIO_BITRATE = "96k"` (`optimize_media.py`). -/
def VIDEO_AUDIO_BITRATE : String := "96k"

/-- `IMAGE_EXTENSIONS` (both scripts): case-sensitive membership against the
lower- and upper-case variants. -/
def IMAGE_EXTENSIONS : List String :=
  [".jpg", ".jpeg", ".png", ".webp", ".JPG", ".JPEG", ".PNG", ".WEBP"]

/-- `VIDEO_EXTENSIONS` (`optimize_media.py`). -/
def VIDEO_EXTENSIONS : List String :=
  [".mp4", ".mov", ".avi", ".mkv", ".MP4", ".MOV", ".AVI", ".MKV"]

/-- The result dictionary built by `optimize_image` / `optimize_video`:
source path, resolved output path, sizes in MB, success flag, optional
error message, and the reduction percentage. -/
structure ConversionResult where
  source : PyPath
  output : PyPath
  original_size_mb : ℚ
  optimized_size_mb : ℚ
  success : Bool
  error : Option String
  reduction_percent : ℚ
deriving DecidableEq

/-- A decoded raster image, reduced to its pixel dimensions.  The mode
normalisation step of the scripts (flattening alpha/palette onto a white
background, or converting to RGB) preserves `img.size`, so colour modes are
not modelled: none of the dimension or path properties depend on them. -/
structure ImageData where
  width : Nat
  height : Nat
deriving DecidableEq

/-- Dimension logic of `optimize_image` (lines 74..80 of
`optimize_media.py`, lines 51..55 of `optimize_productos.py`): if either
dimension exceeds the configured maximum, scale both by
`ratio = min(IMAGE_MAX_WIDTH / width, IMAGE_MAX_HEIGHT / height)` and
truncate with `int(...)`; otherwise keep the dimensions.  Both dimensions
are nonnegative, so Python `int(...)` truncation is the floor. -/
def resizeRatio (w h : Nat) : ℚ :=
  min ((IMAGE_MAX_WIDTH : ℚ) / w) ((IMAGE_MAX_HEIGHT : ℚ) / h)

/-- The new size `(int(width * ratio), int(height * ratio))` of an
oversized image, or the unchanged size. -/
def resizeDims (w h : Nat) : Nat × Nat :=
  if IMAGE_MAX_WIDTH < w ∨ IMAGE_MAX_HEIGHT < h then
    (⌊(w : ℚ) * resizeRatio w h⌋.toNat, ⌊(h : ℚ) * resizeRatio w h⌋.toNat)
  else (w, h)

/-- Arguments of an `img.save(...)` call: target path, explicit format (the
WebP branch passes the string WEBP, the other branch lets Pillow infer),
`quality`, the WebP `method` parameter when passed (6 = the slowest,
best-compressing encoder effort), the `optimize` keyword when passed, and
the pixel dimensions of the image being saved. -/
structure SaveCall where
  path : PyPath
  format : Option String
  quality : Nat
  method : Option Nat
  optimize : Bool
  width : Nat
  height : Nat
deriving DecidableEq

/-- Encoder-side optimisation of a save call: the WebP branch enables it
through `method=6` (maximum encoder effort), the non-WebP branch through
`optimize=True`. -/
def SaveCall.encoderOptimized (c : SaveCall) : Prop :=
  c.method = some 6 ∨ c.optimize = true

/-- Oracle for one run of the Pillow decode/normalise/resize/encode
pipeline inside the `try` block of `optimize_image`: either it reaches the
`img.save` call and the encoded file has the given size, or some step
raises and `str(e)` is `msg`. -/
inductive ImgAttempt where
  | ok (img : ImageData) (encoded_size_mb : ℚ)
  | fail (msg : String)
deriving DecidableEq

/-- Filesystem action performed by `optimize_image` at the destination:
either the `img.save(...)` call, or the fallback `shutil.copy2` of the
original bytes (byte-identical copy, metadata preserved). -/
inductive ImgAction where
  | save (call : SaveCall)
  | fallbackCopy (dest : PyPath)
deriving DecidableEq

/-- Result record together with the destination-producing action of one
`optimize_image` call. -/
structure ImgRun where
  result : ConversionResult
  action : ImgAction
deriving DecidableEq

/-- Embedding of `optimize_image` (lines 44..104 of `optimize_media.py`;
lines 29..75 of `optimize_productos.py` are the same function without the
auxiliary `resized` flag, which is not modelled).  On success the output
path has its extension forced to `.webp` (since `CONVERT_TO_WEBP` is true)
and the result dictionary gets `success=True` and the computed reduction;
on any caught error the original file is copied unchanged to
`output_path`, the message is recorded, and the reduction is 0.  The
fallback copy is byte-identical, so its size is `original_size_mb`. -/
def optimize_image (source_path output_path : PyPath) (original_size_mb : ℚ)
    (attempt : ImgAttempt) : ImgRun :=
  match attempt with
  | .ok img encoded_size_mb =>
      let dims := resizeDims img.width img.height
      let final_output :=
        if CONVERT_TO_WEBP then output_path.withSuffix ".webp" else output_path
      let call : SaveCall :=
        if CONVERT_TO_WEBP then
          { path := final_output, format := some "WEBP", quality := IMAGE_QUALITY,
            method := some 6, optimize := false, width := dims.1, height := dims.2 }
        else
          { path := final_output, format := none, quality := IMAGE_QUALITY,
            method := none, optimize := true, width := dims.1, height := dims.2 }
      { result :=
          { source := source_path
            output := final_output
            original_size_mb := original_size_mb
            optimized_size_mb := encoded_size_mb
            success := true
            error := none
            reduction_percent := (1 - encoded_size_mb / original_size_mb) * 100 }
        action := .save call }
  | .fail msg =>
      { result :=
          { source := source_path
            output := output_path
            original_size_mb := original_size_mb
            optimized_size_mb := original_size_mb
            success := false
            error := some msg
            reduction_percent := 0 }
        action := .fallbackCopy output_path }

/-- The fixed `ffmpeg` argument list of `optimize_video` (lines 128..140 of
`optimize_media.py`). -/
def ffmpeg_cmd (source_path output_path : PyPath) : List String :=
  ["ffmpeg",
   "-i", source_path.toStr,
   "-c:v", "libx264",
   "-crf", toString VIDEO_CRF,
   "-preset", "slow",
   "-vf", "scale=-2:" ++ toString VIDEO_MAX_HEIGHT ++ ":flags=lanczos",
   "-c:a", "aac",
   "-b:a", VIDEO_AUDIO_BITRATE,
   "-movflags", "+faststart",
   "-y",
   output_path.toStr]

/-- The 600-second wall-clock bound passed to `subprocess.run`. -/
def FFMPEG_TIMEOUT_SECONDS : Nat := 600

/-- Oracle for one `subprocess.run(cmd, ..., timeout=600)` invocation of
`ffmpeg`: the process exits with a return code, diagnostic output on
stderr and (when it wrote the destination) a destination size; or the tool
is absent (`FileNotFoundError`); or the 600-second timeout expires
(`subprocess.TimeoutExpired`, whose `str(e)` is `msg`). -/
inductive FfmpegOutcome where
  | exited (returncode : Int) (stderr : String) (output_size_mb : ℚ)
  | toolMissing
  | timedOut (msg : String)
deriving DecidableEq

/-- Filesystem action that finally produces the destination file of one
`optimize_video` call: the external transcode, or the fallback
`shutil.copy2` of the original (byte-identical, metadata preserved). -/
inductive VidAction where
  | transcode (cmd : List String)
  | fallbackCopy (dest : PyPath)
deriving DecidableEq

/-- Result record together with the destination-producing action of one
`optimize_video` call. -/
structure VidRun where
  result : ConversionResult
  action : VidAction
deriving DecidableEq

/-- Embedding of `optimize_video` (lines 107..169 of `optimize_media.py`).
A non-zero return code raises `Exception("FFmpeg error: " + stderr[-500:])`
inside the `try` block; `FileNotFoundError` records the fixed message
`FFmpeg no encontrado`; `TimeoutExpired` is caught by the generic handler
and records `str(e)`.  Every handler copies the original to `output_path`,
so the recorded optimized size is `original_size_mb` and the reduction 0,
and `success` stays `False`. -/
def optimize_video (source_path output_path : PyPath) (original_size_mb : ℚ)
    (outcome : FfmpegOutcome) : VidRun :=
  match outcome with
  | .exited returncode stderr output_size_mb =>
      if returncode ≠ 0 then
        { result :=
            { source := source_path
              output := output_path
              original_size_mb := original_size_mb
              optimized_size_mb := original_size_mb
              success := false
              error := some ("FFmpeg error: " ++ stderr.takeRight 500)
              reduction_percent := 0 }
          action := .fallbackCopy output_path }
      else
        { result :=
            { source := source_path
              output := output_path
              original_size_mb := original_size_mb
              optimized_size_mb := output_size_mb
              success := true
              error := none
              reduction_percent := (1 - output_size_mb / original_size_mb) * 100 }
          action := .transcode (ffmpeg_cmd source_path output_path) }
  | .toolMissing =>
      { result :=
          { source := source_path
            output := output_path
            original_size_mb := original_size_mb
            optimized_size_mb := original_size_mb
            success := false
            error := some "FFmpeg no encontrado"
            reduction_percent := 0 }
        action := .fallbackCopy output_path }
  | .timedOut msg =>
      { result :=
          { source := source_path
            output := output_path
            original_size_mb := original_size_mb
            optimized_size_mb := original_size_mb
            success := false
            error := some msg
            reduction_percent := 0 }
        action := .fallbackCopy output_path }

/-- Route chosen by the dispatcher of `optimize_media.py` for one file. -/
inductive Route where
  | image
  | video
  | copy
deriving DecidableEq

/-- Classification of `optimize_media.py` (lines 216..222): a pure lookup
on the final suffix — image extensions first, then video extensions,
everything else is copied verbatim. -/
def classify (suffix : String) : Route :=
  if suffix ∈ IMAGE_EXTENSIONS then .image
  else if suffix ∈ VIDEO_EXTENSIONS then .video
  else .copy

/-- One regular file found under the source root by `rglob` followed by the
`is_file()` filter: its path relative to the root, its size, and the
oracles for what the image codec (respectively `ffmpeg`) would do with it.
Only the oracle of the route the dispatcher picks is ever consulted. -/
structure SrcFile where
  rel : PyPath
  size_mb : ℚ
  img : ImgAttempt
  ffmpeg : FfmpegOutcome
deriving DecidableEq

/-- `SOURCE_DIR` of `optimize_media.py`, relative to the script directory. -/
def SOURCE_DIR : PyPath := { base := "Servicios", suffix := "" }

/-- `OUTPUT_DIR` of `optimize_media.py`, relative to the script directory. -/
def OUTPUT_DIR : PyPath := { base := "ServiciosOptimized", suffix := "" }

/-- Action taken by one iteration of the main loop of `optimize_media.py`:
an image transcode, a video transcode, or the pass-through branch (create
destination parent directories, `shutil.copy2` byte-for-byte with metadata,
then `continue` without touching the statistics). -/
inductive FileAction where
  | image (run : ImgRun)
  | video (run : VidRun)
  | copied (dest : PyPath)
deriving DecidableEq

/-- One iteration of the loop at lines 209..238 of `optimize_media.py`:
compute the mirrored output path and dispatch on the suffix of the source
file. -/
def processFile (f : SrcFile) : FileAction :=
  let source_file := SOURCE_DIR.join f.rel
  let output_file := OUTPUT_DIR.join f.rel
  match classify source_file.suffix with
  | .image => .image (optimize_image source_file output_file f.size_mb f.img)
  | .video => .video (optimize_video source_file output_file f.size_mb f.ffmpeg)
  | .copy => .copied output_file

/-- Statistics kept for one category (`processed`, `original_size`,
`optimized_size`, `errors`); also the whole statistics dictionary of
`optimize_productos.py`. -/
structure CatStats where
  processed : Nat
  original_size : ℚ
  optimized_size : ℚ
  errors : Nat
deriving DecidableEq

/-- The all-zero statistics a run starts from. -/
def CatStats.start : CatStats :=
  { processed := 0, original_size := 0, optimized_size := 0, errors := 0 }

/-- Folding one conversion result into the statistics of its category
(lines 229..237 of `optimize_media.py`, lines 111..119 of
`optimize_productos.py`): increment `processed`, add both sizes, and
increment `errors` when the result is not a success. -/
def CatStats.fold (s : CatStats) (r : ConversionResult) : CatStats :=
  { processed := s.processed + 1
    original_size := s.original_size + r.original_size_mb
    optimized_size := s.optimized_size + r.optimized_size_mb
    errors := s.errors + (if r.success then 0 else 1) }

/-- The statistics dictionary of `optimize_media.py` (line 198): one
`CatStats` per category. -/
structure MediaStats where
  images : CatStats
  videos : CatStats
deriving DecidableEq

/-- The initial statistics dictionary of `optimize_media.py`. -/
def MediaStats.start : MediaStats :=
  { images := CatStats.start, videos := CatStats.start }

/-- Statistics update for one loop iteration of `optimize_media.py`: a
conversion result is folded into its category; the pass-through copy
branch leaves the statistics untouched (it executes `continue` before the
update). -/
def statsStep (s : MediaStats) (a : FileAction) : MediaStats :=
  match a with
  | .image run => { s with images := s.images.fold run.result }
  | .video run => { s with videos := s.videos.fold run.result }
  | .copied _ => s

/-- The per-file steps of a run of `optimize_media.py` over the enumerated
regular files, in enumeration order: each file is paired with the single
action the loop takes for it. -/
def media_steps (files : List SrcFile) : List (SrcFile × FileAction) :=
  files.map fun f => (f, processFile f)

/-- Outcome of `main` in `optimize_media.py`: either the early return when
the source root is missing (before any file is enumerated or processed),
or a completed run with its steps and final statistics. -/
inductive MediaOutcome where
  | aborted
  | completed (steps : List (SrcFile × FileAction)) (stats : MediaStats)
deriving DecidableEq

/-- Embedding of `main` of `optimize_media.py` (lines 172..268): abort if
the source root does not exist (line 190, the only early return),
otherwise process every enumerated regular file in order and fold the
statistics. -/
def media_main (source_dir_exists : Bool) (files : List SrcFile) : MediaOutcome :=
  if source_dir_exists then
    .completed (media_steps files)
      ((media_steps files).foldl (fun s p => statsStep s p.2) MediaStats.start)
  else .aborted

/-- The category reduction printed by the summary (lines 252..254 of
`optimize_media.py`, lines 129..131 of `optimize_productos.py`): the
division is evaluated only under the guard `original_size > 0`; `none`
means the line is not printed and no division happens. -/
def categoryReduction (d : CatStats) : Option ℚ :=
  if 0 < d.original_size then
    some ((1 - d.optimized_size / d.original_size) * 100)
  else none

/-- The grand-total saving printed at lines 264..265 of
`optimize_media.py`, guarded by `total_original > 0`. -/
def totalReduction (total_original total_optimized : ℚ) : Option ℚ :=
  if 0 < total_original then
    some ((1 - total_optimized / total_original) * 100)
  else none

namespace Productos

/-- `SOURCE_DIR` of `optimize_productos.py`. -/
def SOURCE_DIR : PyPath := { base := "Productos", suffix := "" }

/-- `OUTPUT_DIR` of `optimize_productos.py`. -/
def OUTPUT_DIR : PyPath := { base := "ProductosOptimized", suffix := "" }

/-- The filter at line 99 of `optimize_productos.py`: of all regular files
under the root, keep only those whose suffix is an image extension.  Files
with any other extension are left behind — they are neither converted nor
copied. -/
def files_to_process (all_files : List SrcFile) : List SrcFile :=
  all_files.filter fun f => (SOURCE_DIR.join f.rel).suffix ∈ IMAGE_EXTENSIONS

/-- The per-file steps of a run of `optimize_productos.py`: every filtered
file goes through `optimize_image` with the mirrored output path. -/
def steps (all_files : List SrcFile) : List (SrcFile × ImgRun) :=
  (files_to_process all_files).map fun f =>
    (f, optimize_image (SOURCE_DIR.join f.rel) (OUTPUT_DIR.join f.rel) f.size_mb f.img)

/-- Outcome of `main` in `optimize_productos.py`: the early return when the
source root is missing, or a completed run. -/
inductive Outcome where
  | aborted
  | completed (steps : List (SrcFile × ImgRun)) (stats : CatStats)
deriving DecidableEq

/-- Embedding of `main` of `optimize_productos.py` (lines 78..136): abort
if the source root does not exist (line 90, the only early return),
otherwise process the image-extension files in order and fold the
statistics. -/
def main (source_dir_exists : Bool) (all_files : List SrcFile) : Outcome :=
  if source_dir_exists then
    .completed (steps all_files)
      ((steps all_files).foldl (fun s p => s.fold p.2.result) CatStats.start)
  else .aborted

end Productos

/-- The resize ratio is strictly positive for an image with positive
dimensions. -/
theorem resizeRatio_pos {w h : Nat} (hw : 0 < w) (hh : 0 < h) :
    0 < resizeRatio w h := by
  have hw' : (0 : ℚ) < w := by exact_mod_cast hw
  have hh' : (0 : ℚ) < h := by exact_mod_cast hh
  have h1 : (0 : ℚ) < (IMAGE_MAX_WIDTH : ℚ) := by norm_num [IMAGE_MAX_WIDTH]
  have h2 : (0 : ℚ) < (IMAGE_MAX_HEIGHT : ℚ) := by norm_num [IMAGE_MAX_HEIGHT]
  exact lt_min (div_pos h1 hw') (div_pos h2 hh')

/-- When either dimension exceeds its maximum, the resize ratio is at
most one: the resize step shrinks. -/
theorem resizeRatio_le_one {w h : Nat} (hw : 0 < w) (hh : 0 < h)
    (hbig : IMAGE_MAX_WIDTH < w ∨ IMAGE_MAX_HEIGHT < h) :
    resizeRatio w h ≤ 1 := by
  rcases hbig with hb | hb
  · refine le_trans (min_le_left _ _) ?_
    rw [div_le_one (by exact_mod_cast hw)]
    exact_mod_cast Nat.le_of_lt hb
  · refine le_trans (min_le_right _ _) ?_
    rw [div_le_one (by exact_mod_cast hh)]
    exact_mod_cast Nat.le_of_lt hb

/-- Scaling a natural number by a ratio at most one and flooring never
exceeds the number. -/
theorem floor_scale_le {n : Nat} {r : ℚ} (hr : r ≤ 1) :
    ⌊(n : ℚ) * r⌋.toNat ≤ n := by
  rw [Int.toNat_le]
  calc ⌊(n : ℚ) * r⌋ ≤ ⌊(n : ℚ)⌋ :=
        Int.floor_le_floor (mul_le_of_le_one_right (by positivity) hr)
    _ = n := Int.floor_natCast n

/-- The floor of a quantity bounded by a natural number is bounded by it. -/
theorem floor_toNat_le_of_le {q : ℚ} {n : Nat} (h : q ≤ n) : ⌊q⌋.toNat ≤ n := by
  rw [Int.toNat_le]
  exact le_trans (Int.floor_le_floor h) (le_of_eq (Int.floor_natCast n))

/-- Flooring a nonnegative rational moves it by strictly less than one. -/
theorem floor_toNat_abs_lt_one {q : ℚ} (hq : 0 ≤ q) :
    |((⌊q⌋.toNat : ℚ)) - q| < 1 := by
  have h0 : (0 : ℤ) ≤ ⌊q⌋ := Int.floor_nonneg.mpr hq
  have hcast : ((⌊q⌋.toNat : ℚ)) = ((⌊q⌋ : ℤ) : ℚ) := by
    exact_mod_cast congrArg (fun z : ℤ => (z : ℚ)) (Int.toNat_of_nonneg h0)
  rw [hcast, abs_sub_lt_iff]
  constructor
  · have := Int.floor_le q
    linarith
  · have := Int.sub_one_lt_floor q
    linarith

/-- C2: for every input to the image transcoder, a caught
decode/resize/encode error makes `optimize_image` fall back to copying the
untouched original bytes to the destination path (so the recorded
optimized size equals the original size), record the error string, leave
`success` false, report a reduction of 0, keep the destination path with
its original extension in the `output` field, and still return a complete
result record (the embedding is a total function, so no exception escapes
the boundary). -/
theorem C2_image_error_fallback (source_path output_path : PyPath)
    (original_size_mb : ℚ) (msg : String) :
    (optimize_image source_path output_path original_size_mb
        (ImgAttempt.fail msg)).result.success = false ∧
    (optimize_image source_path output_path original_size_mb
        (ImgAttempt.fail msg)).result.error = some msg ∧
    (optimize_image source_path output_path original_size_mb
        (ImgAttempt.fail msg)).result.reduction_percent = 0 ∧
    (optimize_image source_path output_path original_size_mb
        (ImgAttempt.fail msg)).result.optimized_size_mb = original_size_mb ∧
    (optimize_image source_path output_path original_size_mb
        (ImgAttempt.fail msg)).result.output = output_path ∧
    (optimize_image source_path output_path original_size_mb
        (ImgAttempt.fail msg)).action = ImgAction.fallbackCopy output_path :=
  ⟨rfl, rfl, rfl, rfl, rfl, rfl⟩

/-- C3: the three failure modes of the external transcoder — non-zero exit
code, missing tool (`FileNotFoundError`), and expiry of the 600-second
timeout — are handled uniformly by `optimize_video`: the original is
copied to the destination (recorded optimized size equals the original
size), an error is recorded (the prefix `FFmpeg error:` followed by the
last 500 characters of stderr on a non-zero exit; the fixed
tool-not-found message `FFmpeg no encontrado` when the tool is missing;
the exception text on timeout), the reduction is 0 and `success` is
false; the embedding is a total function, so no exception escapes the
boundary. -/
theorem C3_video_failure_modes (source_path output_path : PyPath)
    (original_size_mb : ℚ) (code : Int) (stderr : String)
    (output_size_mb : ℚ) (msg : String) (hcode : code ≠ 0) :
    ((optimize_video source_path output_path original_size_mb
        (FfmpegOutcome.exited code stderr output_size_mb)).result.success = false ∧
     (optimize_video source_path output_path original_size_mb
        (FfmpegOutcome.exited code stderr output_size_mb)).result.error
        = some ("FFmpeg error: " ++ stderr.takeRight 500) ∧
     (optimize_video source_path output_path original_size_mb
        (FfmpegOutcome.exited code stderr output_size_mb)).result.reduction_percent = 0 ∧
     (optimize_video source_path output_path original_size_mb
        (FfmpegOutcome.exited code stderr output_size_mb)).result.optimized_size_mb
        = original_size_mb ∧
     (optimize_video source_path output_path original_size_mb
        (FfmpegOutcome.exited code stderr output_size_mb)).action
        = VidAction.fallbackCopy output_path) ∧
    ((optimize_video source_path output_path original_size_mb
        FfmpegOutcome.toolMissing).result.success = false ∧
     (optimize_video source_path output_path original_size_mb
        FfmpegOutcome.toolMissing).result.error = some "FFmpeg no encontrado" ∧
     (optimize_video source_path output_path original_size_mb
        FfmpegOutcome.toolMissing).result.reduction_percent = 0 ∧
     (optimize_video source_path output_path original_size_mb
        FfmpegOutcome.toolMissing).result.optimized_size_mb = original_size_mb ∧
     (optimize_video source_path output_path original_size_mb
        FfmpegOutcome.toolMissing).action = VidAction.fallbackCopy output_path) ∧
    ((optimize_video source_path output_path original_size_mb
        (FfmpegOutcome.timedOut msg)).result.success = false ∧
     (optimize_video source_path output_path original_size_mb
        (FfmpegOutcome.timedOut msg)).result.error = some msg ∧
     (optimize_video source_path output_path original_size_mb
        (FfmpegOutcome.timedOut msg)).result.reduction_percent = 0 ∧
     (optimize_video source_path output_path original_size_mb
        (FfmpegOutcome.timedOut msg)).result.optimized_size_mb = original_size_mb ∧
     (optimize_video source_path output_path original_size_mb
        (FfmpegOutcome.timedOut msg)).action = VidAction.fallbackCopy output_path) := by
  refine ⟨?_, ⟨rfl, rfl, rfl, rfl, rfl⟩, ⟨rfl, rfl, rfl, rfl, rfl⟩⟩
  simp [optimize_video, hcode]

/-- Witness for C3 at a concrete video file with exit code 1, a missing
tool and a timeout. -/
theorem C3_video_failure_modes_witness :
    (1 : Int) ≠ 0 ∧
    ((optimize_video ⟨"Servicios/clip", ".mp4"⟩ ⟨"ServiciosOptimized/clip", ".mp4"⟩ 5
        (FfmpegOutcome.exited 1 "boom" 2)).result.success = false ∧
     (optimize_video ⟨"Servicios/clip", ".mp4"⟩ ⟨"ServiciosOptimized/clip", ".mp4"⟩ 5
        (FfmpegOutcome.exited 1 "boom" 2)).result.error
        = some ("FFmpeg error: " ++ "boom".takeRight 500) ∧
     (optimize_video ⟨"Servicios/clip", ".mp4"⟩ ⟨"ServiciosOptimized/clip", ".mp4"⟩ 5
        (FfmpegOutcome.exited 1 "boom" 2)).result.reduction_percent = 0 ∧
     (optimize_video ⟨"Servicios/clip", ".mp4"⟩ ⟨"ServiciosOptimized/clip", ".mp4"⟩ 5
        (FfmpegOutcome.exited 1 "boom" 2)).result.optimized_size_mb = 5 ∧
     (optimize_video ⟨"Servicios/clip", ".mp4"⟩ ⟨"ServiciosOptimized/clip", ".mp4"⟩ 5
        (FfmpegOutcome.exited 1 "boom" 2)).action
        = VidAction.fallbackCopy ⟨"ServiciosOptimized/clip", ".mp4"⟩) ∧
    ((optimize_video ⟨"Servicios/clip", ".mp4"⟩ ⟨"ServiciosOptimized/clip", ".mp4"⟩ 5
        FfmpegOutcome.toolMissing).result.success = false ∧
     (optimize_video ⟨"Servicios/clip", ".mp4"⟩ ⟨"ServiciosOptimized/clip", ".mp4"⟩ 5
        FfmpegOutcome.toolMissing).result.error = some "FFmpeg no encontrado" ∧
     (optimize_video ⟨"Servicios/clip", ".mp4"⟩ ⟨"ServiciosOptimized/clip", ".mp4"⟩ 5
        FfmpegOutcome.toolMissing).result.reduction_percent = 0 ∧
     (optimize_video ⟨"Servicios/clip", ".mp4"⟩ ⟨"ServiciosOptimized/clip", ".mp4"⟩ 5
        FfmpegOutcome.toolMissing).result.optimized_size_mb = 5 ∧
     (optimize_video ⟨"Servicios/clip", ".mp4"⟩ ⟨"ServiciosOptimized/clip", ".mp4"⟩ 5
        FfmpegOutcome.toolMissing).action
        = VidAction.fallbackCopy ⟨"ServiciosOptimized/clip", ".mp4"⟩) ∧
    ((optimize_video ⟨"Servicios/clip", ".mp4"⟩ ⟨"ServiciosOptimized/clip", ".mp4"⟩ 5
        (FfmpegOutcome.timedOut "timed out after 600 seconds")).result.success = false ∧
     (optimize_video ⟨"Servicios/clip", ".mp4"⟩ ⟨"ServiciosOptimized/clip", ".mp4"⟩ 5
        (FfmpegOutcome.timedOut "timed out after 600 seconds")).result.error
        = some "timed out after 600 seconds" ∧
     (optimize_video ⟨"Servicios/clip", ".mp4"⟩ ⟨"ServiciosOptimized/clip", ".mp4"⟩ 5
        (FfmpegOutcome.timedOut "timed out after 600 seconds")).result.reduction_percent = 0 ∧
     (optimize_video ⟨"Servicios/clip", ".mp4"⟩ ⟨"ServiciosOptimized/clip", ".mp4"⟩ 5
        (FfmpegOutcome.timedOut "timed out after 600 seconds")).result.optimized_size_mb = 5 ∧
     (optimize_video ⟨"Servicios/clip", ".mp4"⟩ ⟨"ServiciosOptimized/clip", ".mp4"⟩ 5
        (FfmpegOutcome.timedOut "timed out after 600 seconds")).action
        = VidAction.fallbackCopy ⟨"ServiciosOptimized/clip", ".mp4"⟩) :=
  ⟨by decide,
   C3_video_failure_modes ⟨"Servicios/clip", ".mp4"⟩ ⟨"ServiciosOptimized/clip", ".mp4"⟩ 5 1
     "boom" 2 "timed out after 600 seconds" (by decide)⟩

/-- C7: a missing source root aborts the run of either pipeline before any
file is enumerated or processed (the `aborted` outcome carries no steps
and no statistics), and this is the only condition under which a run
aborts: with the root present the outcome is always a completed run. -/
theorem C7_missing_root_only_early_return :
    (∀ files, media_main false files = MediaOutcome.aborted) ∧
    (∀ (e : Bool) (files : List SrcFile),
      media_main e files = MediaOutcome.aborted ↔ e = false) ∧
    (∀ all_files, Productos.main false all_files = Productos.Outcome.aborted) ∧
    (∀ (e : Bool) (all_files : List SrcFile),
      Productos.main e all_files = Productos.Outcome.aborted ↔ e = false) := by
  refine ⟨fun _ => rfl, ?_, fun _ => rfl, ?_⟩
  · intro e files
    cases e <;> simp [media_main]
  · intro e all_files
    cases e <;> simp [Productos.main]

/-- C9: the category and grand-total reduction percentages are evaluated
only under the guard that the summed original size is strictly positive,
so a run over an empty source directory completes normally with zero
processed counts in every category and no reduction line (hence no
division by zero) in either pipeline. -/
theorem C9_reduction_guards :
    (∀ d : CatStats, (categoryReduction d).isSome ↔ 0 < d.original_size) ∧
    (∀ total_original total_optimized : ℚ,
      (totalReduction total_original total_optimized).isSome ↔ 0 < total_original) ∧
    media_main true [] = MediaOutcome.completed [] MediaStats.start ∧
    MediaStats.start.images.processed = 0 ∧
    MediaStats.start.videos.processed = 0 ∧
    categoryReduction MediaStats.start.images = none ∧
    categoryReduction MediaStats.start.videos = none ∧
    totalReduction
      (MediaStats.start.images.original_size + MediaStats.start.videos.original_size)
      (MediaStats.start.images.optimized_size + MediaStats.start.videos.optimized_size)
      = none ∧
    Productos.main true [] = Productos.Outcome.completed [] CatStats.start ∧
    CatStats.start.processed = 0 ∧
    categoryReduction CatStats.start = none := by
  refine ⟨?_, ?_, rfl, rfl, rfl, ?_, ?_, ?_, rfl, rfl, ?_⟩
  · intro d
    by_cases h : 0 < d.original_size <;> simp [categoryReduction, h]
  · intro a b
    by_cases h : 0 < a <;> simp [totalReduction, h]
  · simp [categoryReduction, MediaStats.start, CatStats.start]
  · simp [categoryReduction, MediaStats.start, CatStats.start]
  · simp [totalReduction, MediaStats.start, CatStats.start]
  · simp [categoryReduction, CatStats.start]

/-- C4: an image whose width and height are both within the configured
maxima (1920 x 1080) keeps its pixel dimensions unchanged through the
resize step, and the resize step never upscales: for every image with
positive dimensions, the output dimensions never exceed the input
dimensions. -/
theorem C4_within_bounds_unchanged (w h : Nat)
    (hw : w ≤ IMAGE_MAX_WIDTH) (hh : h ≤ IMAGE_MAX_HEIGHT) :
    resizeDims w h = (w, h) ∧
    (∀ u v : Nat, 0 < u → 0 < v →
      (resizeDims u v).1 ≤ u ∧ (resizeDims u v).2 ≤ v) := by
  constructor
  · rw [resizeDims, if_neg]
    push_neg
    exact ⟨hw, hh⟩
  · intro u v hu hv
    by_cases hbig : IMAGE_MAX_WIDTH < u ∨ IMAGE_MAX_HEIGHT < v
    · have hr1 := resizeRatio_le_one hu hv hbig
      rw [resizeDims, if_pos hbig]
      exact ⟨floor_scale_le hr1, floor_scale_le hr1⟩
    · rw [resizeDims, if_neg hbig]
      exact ⟨le_refl u, le_refl v⟩

/-- Witness for C4 at a concrete 800 x 600 image. -/
theorem C4_within_bounds_unchanged_witness :
    800 ≤ IMAGE_MAX_WIDTH ∧ 600 ≤ IMAGE_MAX_HEIGHT ∧
    (resizeDims 800 600 = (800, 600) ∧
     (∀ u v : Nat, 0 < u → 0 < v →
       (resizeDims u v).1 ≤ u ∧ (resizeDims u v).2 ≤ v)) :=
  ⟨by decide, by decide, C4_within_bounds_unchanged 800 600 (by decide) (by decide)⟩

/-- C5: for an oversized image (width over 1920 or height over 1080) with
positive dimensions, the resized dimensions
`(int(width * ratio), int(height * ratio))` with
`ratio = min(1920/width, 1080/height)` fit the bounds —
`max(out_w / 1920, out_h / 1080) <= 1` — and the aspect ratio is
preserved within the rounding tolerance: each output dimension is within
one pixel of the exactly-scaled dimension under a single common positive
scale factor. -/
theorem C5_oversized_bounds_and_aspect (w h : Nat) (hw : 0 < w) (hh : 0 < h)
    (hbig : IMAGE_MAX_WIDTH < w ∨ IMAGE_MAX_HEIGHT < h) :
    ((resizeDims w h).1 ≤ IMAGE_MAX_WIDTH ∧ (resizeDims w h).2 ≤ IMAGE_MAX_HEIGHT) ∧
    max (((resizeDims w h).1 : ℚ) / (IMAGE_MAX_WIDTH : ℚ))
        (((resizeDims w h).2 : ℚ) / (IMAGE_MAX_HEIGHT : ℚ)) ≤ 1 ∧
    (∃ r : ℚ, 0 < r ∧
      |((resizeDims w h).1 : ℚ) - w * r| < 1 ∧
      |((resizeDims w h).2 : ℚ) - h * r| < 1) := by
  have hw' : (0 : ℚ) < w := by exact_mod_cast hw
  have hh' : (0 : ℚ) < h := by exact_mod_cast hh
  have hrpos : 0 < resizeRatio w h := resizeRatio_pos hw hh
  have hwr : (w : ℚ) * resizeRatio w h ≤ (IMAGE_MAX_WIDTH : ℚ) := by
    calc (w : ℚ) * resizeRatio w h
        ≤ (w : ℚ) * ((IMAGE_MAX_WIDTH : ℚ) / w) :=
          mul_le_mul_of_nonneg_left (min_le_left _ _) (le_of_lt hw')
      _ = (IMAGE_MAX_WIDTH : ℚ) := by field_simp
  have hhr : (h : ℚ) * resizeRatio w h ≤ (IMAGE_MAX_HEIGHT : ℚ) := by
    calc (h : ℚ) * resizeRatio w h
        ≤ (h : ℚ) * ((IMAGE_MAX_HEIGHT : ℚ) / h) :=
          mul_le_mul_of_nonneg_left (min_le_right _ _) (le_of_lt hh')
      _ = (IMAGE_MAX_HEIGHT : ℚ) := by field_simp
  have e1 : (resizeDims w h).1 = ⌊(w : ℚ) * resizeRatio w h⌋.toNat := by
    rw [resizeDims, if_pos hbig]
  have e2 : (resizeDims w h).2 = ⌊(h : ℚ) * resizeRatio w h⌋.toNat := by
    rw [resizeDims, if_pos hbig]
  have b1 : (resizeDims w h).1 ≤ IMAGE_MAX_WIDTH := by
    rw [e1]
    exact floor_toNat_le_of_le hwr
  have b2 : (resizeDims w h).2 ≤ IMAGE_MAX_HEIGHT := by
    rw [e2]
    exact floor_toNat_le_of_le hhr
  refine ⟨⟨b1, b2⟩, ?_, resizeRatio w h, hrpos, ?_, ?_⟩
  · apply max_le
    · rw [div_le_one (by norm_num [IMAGE_MAX_WIDTH])]
      exact_mod_cast b1
    · rw [div_le_one (by norm_num [IMAGE_MAX_HEIGHT])]
      exact_mod_cast b2
  · rw [e1]
    exact floor_toNat_abs_lt_one (by positivity)
  · rw [e2]
    exact floor_toNat_abs_lt_one (by positivity)

/-- Witness for C5 at a concrete 3000 x 2000 image (whose resized
dimensions are 1620 x 1080). -/
theorem C5_oversized_bounds_and_aspect_witness :
    (0 < 3000 ∧ 0 < 2000 ∧ (IMAGE_MAX_WIDTH < 3000 ∨ IMAGE_MAX_HEIGHT < 2000)) ∧
    (((resizeDims 3000 2000).1 ≤ IMAGE_MAX_WIDTH ∧
      (resizeDims 3000 2000).2 ≤ IMAGE_MAX_HEIGHT) ∧
     max (((resizeDims 3000 2000).1 : ℚ) / (IMAGE_MAX_WIDTH : ℚ))
         (((resizeDims 3000 2000).2 : ℚ) / (IMAGE_MAX_HEIGHT : ℚ)) ≤ 1 ∧
     (∃ r : ℚ, 0 < r ∧
       |((resizeDims 3000 2000).1 : ℚ) - 3000 * r| < 1 ∧
       |((resizeDims 3000 2000).2 : ℚ) - 2000 * r| < 1)) :=
  ⟨⟨by decide, by decide, by decide⟩,
   C5_oversized_bounds_and_aspect 3000 2000 (by decide) (by decide) (by decide)⟩

/-- C8: with `CONVERT_TO_WEBP` fixed to true, every successful image
transcode saves at the destination path with the extension forced to
`.webp`, in explicit WEBP format at the configured quality 75 with
encoder-side optimisation enabled (the WebP branch passes `method=6`, the
maximum encoder effort), and the `output` field of the result record is
that `.webp` path.  The hypothesis `0 < original_size_mb` reflects that a
successfully decoded source file is nonempty, so the reduction division
of the success path is defined. -/
theorem C8_webp_success_output (source_path output_path : PyPath)
    (original_size_mb encoded_size_mb : ℚ) (img : ImageData)
    (_hpos : 0 < original_size_mb) :
    CONVERT_TO_WEBP = true ∧
    (optimize_image source_path output_path original_size_mb
        (ImgAttempt.ok img encoded_size_mb)).result.success = true ∧
    (optimize_image source_path output_path original_size_mb
        (ImgAttempt.ok img encoded_size_mb)).result.output
      = output_path.withSuffix ".webp" ∧
    ∃ call : SaveCall,
      (optimize_image source_path output_path original_size_mb
          (ImgAttempt.ok img encoded_size_mb)).action = ImgAction.save call ∧
      call.path = output_path.withSuffix ".webp" ∧
      call.format = some "WEBP" ∧
      call.quality = IMAGE_QUALITY ∧
      IMAGE_QUALITY = 75 ∧
      call.encoderOptimized := by
  refine ⟨rfl, rfl, rfl, ?_⟩
  exact ⟨_, rfl, rfl, rfl, rfl, rfl, Or.inl rfl⟩

/-- Witness for C8 at a concrete 3000 x 2000 JPEG of 4 MB encoding to
1 MB. -/
theorem C8_webp_success_output_witness :
    0 < (4 : ℚ) ∧
    (CONVERT_TO_WEBP = true ∧
     (optimize_image ⟨"Servicios/foto", ".jpg"⟩ ⟨"ServiciosOptimized/foto", ".jpg"⟩ 4
         (ImgAttempt.ok ⟨3000, 2000⟩ 1)).result.success = true ∧
     (optimize_image ⟨"Servicios/foto", ".jpg"⟩ ⟨"ServiciosOptimized/foto", ".jpg"⟩ 4
         (ImgAttempt.ok ⟨3000, 2000⟩ 1)).result.output
       = PyPath.withSuffix ⟨"ServiciosOptimized/foto", ".jpg"⟩ ".webp" ∧
     ∃ call : SaveCall,
       (optimize_image ⟨"Servicios/foto", ".jpg"⟩ ⟨"ServiciosOptimized/foto", ".jpg"⟩ 4
           (ImgAttempt.ok ⟨3000, 2000⟩ 1)).action = ImgAction.save call ∧
       call.path = PyPath.withSuffix ⟨"ServiciosOptimized/foto", ".jpg"⟩ ".webp" ∧
       call.format = some "WEBP" ∧
       call.quality = IMAGE_QUALITY ∧
       IMAGE_QUALITY = 75 ∧
       call.encoderOptimized) :=
  ⟨by norm_num,
   C8_webp_success_output ⟨"Servicios/foto", ".jpg"⟩ ⟨"ServiciosOptimized/foto", ".jpg"⟩ 4 1
     ⟨3000, 2000⟩ (by norm_num)⟩

/-- C1 fails as stated: in the product pipeline an enumerated regular file
whose extension is not an image extension produces neither a
`ConversionResult` nor a verbatim copy — the completed run over the single
regular file `notes.txt` has no step at all (the filter at line 99 of
`optimize_productos.py` drops the file before the loop, and the script has
no copy branch). -/
theorem C1_product_counterexample_txt_dropped :
    Productos.main true
        [⟨⟨"notes", ".txt"⟩, 1, ImgAttempt.fail "not an image", FfmpegOutcome.toolMissing⟩]
      = Productos.Outcome.completed [] CatStats.start ∧
    (Productos.steps
        [⟨⟨"notes", ".txt"⟩, 1, ImgAttempt.fail "not an image", FfmpegOutcome.toolMissing⟩]).length
      = 0 :=
  ⟨rfl, rfl⟩

/-- C1 amended: in the media pipeline every enumerated regular file
produces exactly one step — with the same multiplicity it occurs with in
the enumeration — and each step is exactly one of: an image conversion
result, a video conversion result, or a verbatim copy to the mirrored
destination path.  In the product pipeline this holds exactly for the
files whose extension is in the image set; every other enumerated file is
dropped before the loop, producing no result and no copy. -/
theorem C1_amended_one_action_per_file (files : List SrcFile) (f : SrcFile) :
    ((media_steps files).map Prod.fst).count f = files.count f ∧
    (∀ p ∈ media_steps files, p.2 = processFile p.1) ∧
    (∀ g : SrcFile,
      (∃ run, processFile g = FileAction.image run) ∨
      (∃ run, processFile g = FileAction.video run) ∨
      processFile g = FileAction.copied (OUTPUT_DIR.join g.rel)) ∧
    ((Productos.steps files).map Prod.fst).count f
      = (Productos.files_to_process files).count f := by
  refine ⟨?_, ?_, ?_, ?_⟩
  · have hfst : (media_steps files).map Prod.fst = files := by
      rw [media_steps, List.map_map]
      rw [show (Prod.fst ∘ fun f : SrcFile => (f, processFile f)) = id from rfl]
      exact List.map_id files
    rw [hfst]
  · intro p hp
    rw [media_steps, List.mem_map] at hp
    obtain ⟨g, _, rfl⟩ := hp
    rfl
  · intro g
    rw [processFile]
    rcases hc : classify ((SOURCE_DIR.join g.rel).suffix) with _ | _ | _ <;>
      simp [hc]
  · have hfst : (Productos.steps files).map Prod.fst = Productos.files_to_process files := by
      rw [Productos.steps, List.map_map]
      rw [show (Prod.fst ∘ fun f : SrcFile =>
        (f, optimize_image (Productos.SOURCE_DIR.join f.rel)
          (Productos.OUTPUT_DIR.join f.rel) f.size_mb f.img)) = id from rfl]
      exact List.map_id _
    rw [hfst]

/-- C6 fails as stated: in the product pipeline a file with an unknown
extension is not routed to a verbatim copy — the completed run over the
single regular file `doc.pdf` performs no action at all, so no
byte-for-byte copy reaches the mirrored destination. -/
theorem C6_product_counterexample_pdf_not_copied :
    Productos.main true
        [⟨⟨"doc", ".pdf"⟩, 2, ImgAttempt.fail "cannot identify image file",
          FfmpegOutcome.toolMissing⟩]
      = Productos.Outcome.completed [] CatStats.start :=
  rfl

/-- C6 amended: in the media pipeline a file whose extension is neither an
image nor a video extension is routed to the pass-through branch — parent
directories created and a byte-for-byte metadata-preserving copy placed at
the mirrored destination path — and such a step never touches the category
statistics; classification is the pure extension lookup `classify`, with
`copy` exactly on the unknown extensions.  In the product pipeline such a
file is instead dropped before the loop: it appears in no step and is
neither converted nor copied. -/
theorem C6_amended_unknown_extension_routing (files : List SrcFile) (f : SrcFile)
    (hf : f ∈ files)
    (himg : (SOURCE_DIR.join f.rel).suffix ∉ IMAGE_EXTENSIONS)
    (hvid : (SOURCE_DIR.join f.rel).suffix ∉ VIDEO_EXTENSIONS) :
    (f, FileAction.copied (OUTPUT_DIR.join f.rel)) ∈ media_steps files ∧
    (∀ (s : MediaStats) (d : PyPath), statsStep s (FileAction.copied d) = s) ∧
    (∀ suffix : String, classify suffix = Route.copy ↔
      suffix ∉ IMAGE_EXTENSIONS ∧ suffix ∉ VIDEO_EXTENSIONS) ∧
    f ∉ (Productos.steps files).map Prod.fst := by
  have hc : classify ((SOURCE_DIR.join f.rel).suffix) = Route.copy := by
    rw [classify, if_neg himg, if_neg hvid]
  refine ⟨?_, fun s d => rfl, ?_, ?_⟩
  · rw [media_steps, List.mem_map]
    refine ⟨f, hf, ?_⟩
    rw [processFile]
    simp [hc]
  · intro suffix
    constructor
    · intro h
      rw [classify] at h
      constructor
      · intro hmem
        rw [if_pos hmem] at h
        exact Route.noConfusion h
      · intro hmem
        by_cases h1 : suffix ∈ IMAGE_EXTENSIONS
        · rw [if_pos h1] at h
          exact Route.noConfusion h
        · rw [if_neg h1, if_pos hmem] at h
          exact Route.noConfusion h
    · intro ⟨h1, h2⟩
      rw [classify, if_neg h1, if_neg h2]
  · have hfst : (Productos.steps files).map Prod.fst = Productos.files_to_process files := by
      rw [Productos.steps, List.map_map]
      rw [show (Prod.fst ∘ fun f : SrcFile =>
        (f, optimize_image (Productos.SOURCE_DIR.join f.rel)
          (Productos.OUTPUT_DIR.join f.rel) f.size_mb f.img)) = id from rfl]
      exact List.map_id _
    rw [hfst, Productos.files_to_process]
    intro hmem
    rw [List.mem_filter] at hmem
    exact himg (by simpa [Productos.SOURCE_DIR, SOURCE_DIR, PyPath.join] using hmem.2)

/-- Witness for C6 at a concrete run over one `.docx` file. -/
theorem C6_amended_unknown_extension_routing_witness :
    ((⟨⟨"contrato", ".docx"⟩, 1, ImgAttempt.fail "e", FfmpegOutcome.toolMissing⟩ : SrcFile)
        ∈ [(⟨⟨"contrato", ".docx"⟩, 1, ImgAttempt.fail "e", FfmpegOutcome.toolMissing⟩ : SrcFile)] ∧
      (SOURCE_DIR.join (⟨"contrato", ".docx"⟩ : PyPath)).suffix ∉ IMAGE_EXTENSIONS ∧
      (SOURCE_DIR.join (⟨"contrato", ".docx"⟩ : PyPath)).suffix ∉ VIDEO_EXTENSIONS) ∧
    (((⟨⟨"contrato", ".docx"⟩, 1, ImgAttempt.fail "e", FfmpegOutcome.toolMissing⟩ : SrcFile),
        FileAction.copied (OUTPUT_DIR.join (⟨"contrato", ".docx"⟩ : PyPath)))
        ∈ media_steps
          [(⟨⟨"contrato", ".docx"⟩, 1, ImgAttempt.fail "e", FfmpegOutcome.toolMissing⟩ : SrcFile)] ∧
     (∀ (s : MediaStats) (d : PyPath), statsStep s (FileAction.copied d) = s) ∧
     (∀ suffix : String, classify suffix = Route.copy ↔
       suffix ∉ IMAGE_EXTENSIONS ∧ suffix ∉ VIDEO_EXTENSIONS) ∧
     (⟨⟨"contrato", ".docx"⟩, 1, ImgAttempt.fail "e", FfmpegOutcome.toolMissing⟩ : SrcFile)
        ∉ (Productos.steps
          [(⟨⟨"contrato", ".docx"⟩, 1, ImgAttempt.fail "e", FfmpegOutcome.toolMissing⟩ : SrcFile)]).map
          Prod.fst) :=
  ⟨⟨List.mem_singleton.mpr rfl, by decide, by decide⟩,
   C6_amended_unknown_extension_routing
     [(⟨⟨"contrato", ".docx"⟩, 1, ImgAttempt.fail "e", FfmpegOutcome.toolMissing⟩ : SrcFile)]
     (⟨⟨"contrato", ".docx"⟩, 1, ImgAttempt.fail "e", FfmpegOutcome.toolMissing⟩ : SrcFile)
     (List.mem_singleton.mpr rfl) (by decide) (by decide)⟩

/-- C10 fails as stated in its final consequence: for a source file whose
extension is already `.webp` (a member of the image-extension set, so the
transcoder does process such files), forcing the extension to `.webp` on
the success path yields the very same destination path that the failure
path copies to, so the destination name does not differ between the two
paths. -/
theorem C10_counterexample_webp_source_same_name :
    (optimize_image ⟨"Productos/logo", ".webp"⟩ ⟨"ProductosOptimized/logo", ".webp"⟩ 1
        (ImgAttempt.ok ⟨100, 100⟩ 1)).result.output
      = (optimize_image ⟨"Productos/logo", ".webp"⟩ ⟨"ProductosOptimized/logo", ".webp"⟩ 1
        (ImgAttempt.fail "decode error")).result.output ∧
    (".webp" : String) ∈ IMAGE_EXTENSIONS :=
  ⟨rfl, by decide⟩

/-- C10 amended: on image-transcode failure the fallback copy is written
at the destination path with the original extension of the source (not
`.webp`) and the `output` field of the result record names that
original-extension path; consequently the destination name differs
between the success path and the failure path whenever the extension of
the destination (which mirrors the source) is not already `.webp`. -/
theorem C10_amended_failure_keeps_extension (source_path output_path : PyPath)
    (original_size_mb encoded_size_mb : ℚ) (msg : String) (img : ImageData)
    (hsuf : output_path.suffix ≠ ".webp") :
    (optimize_image source_path output_path original_size_mb
        (ImgAttempt.fail msg)).result.output = output_path ∧
    (optimize_image source_path output_path original_size_mb
        (ImgAttempt.fail msg)).action = ImgAction.fallbackCopy output_path ∧
    (optimize_image source_path output_path original_size_mb
        (ImgAttempt.ok img encoded_size_mb)).result.output
      ≠ (optimize_image source_path output_path original_size_mb
        (ImgAttempt.fail msg)).result.output := by
  refine ⟨rfl, rfl, ?_⟩
  intro hEq
  exact hsuf (congrArg PyPath.suffix hEq).symm

/-- Witness for C10 at a concrete `.jpg` destination. -/
theorem C10_amended_failure_keeps_extension_witness :
    (⟨"ProductosOptimized/foto", ".jpg"⟩ : PyPath).suffix ≠ ".webp" ∧
    ((optimize_image ⟨"Productos/foto", ".jpg"⟩ ⟨"ProductosOptimized/foto", ".jpg"⟩ 4
        (ImgAttempt.fail "decode error")).result.output
        = ⟨"ProductosOptimized/foto", ".jpg"⟩ ∧
     (optimize_image ⟨"Productos/foto", ".jpg"⟩ ⟨"ProductosOptimized/foto", ".jpg"⟩ 4
        (ImgAttempt.fail "decode error")).action
        = ImgAction.fallbackCopy ⟨"ProductosOptimized/foto", ".jpg"⟩ ∧
     (optimize_image ⟨"Productos/foto", ".jpg"⟩ ⟨"ProductosOptimized/foto", ".jpg"⟩ 4
        (ImgAttempt.ok ⟨600, 400⟩ 1)).result.output
       ≠ (optimize_image ⟨"Productos/foto", ".jpg"⟩ ⟨"ProductosOptimized/foto", ".jpg"⟩ 4
        (ImgAttempt.fail "decode error")).result.output) :=
  ⟨by decide,
   C10_amended_failure_keeps_extension ⟨"Productos/foto", ".jpg"⟩
     ⟨"ProductosOptimized/foto", ".jpg"⟩ 4 1 "decode error" ⟨600, 400⟩ (by decide)⟩
